import Mathlib

/-!
# FireHydrant ETL pipeline — verification of the specification against the code

Shallow embedding of the Cincinnati fire-hydrant insurance-rating ETL pipeline
(`validation.py`, `transform.py`, `storage.py`, `run_hydrant_pipeline.py`,
`alerts.py`) and proofs of the frozen claims about it.

Modelling conventions:
* A raw JSON record is an association list from field names to `Value`s
  (string, number, or null).  Python dict key membership is `lookup`-based.
* Pandas numeric columns are `Option ℚ` (`none` models NaN; all comparisons
  with NaN are false, mirrored by the `opt*` comparison helpers).
* `pd.to_numeric(errors clamped to coerce)` is `to_numeric`: numbers pass
  through, plain decimal literals parse, anything else becomes `none`.
* `astype(str)` is `pyStr` (Python `str()`: `None` renders as `"None"`;
  the exact rendering of numbers is abstracted).
* Rounding to two decimals uses round-half-to-even on ℚ, matching the
  float rounding of `Series.round(2)` away from representation noise.
* The filesystem touched by `storage.py` is a two-level map: directory
  flags plus (directory, filename) ↦ file contents.  `os.makedirs` with
  `exist_ok` set is total; `to_parquet` overwrites the target path.
* File/IO plumbing (reading the JSON file in `validate_data`, the fetch
  stage) is abstracted to the parsed list of records it yields; wall-clock
  lineage stamps (`load_date`) are threaded as an explicit parameter.
-/

/-- A JSON / pandas cell value: a string, a number, or null (None / NaN). -/
inductive Value where
  | vStr (s : String)
  | vNum (q : ℚ)
  | vNull
deriving DecidableEq

/-- A raw record: an association list from field names to values
(a Python dict as delivered by the API). -/
abbrev Record := List (String × Value)

/-- Dict lookup; a missing key reads as null (pandas fills absent keys of a
row with NaN when building the DataFrame). -/
def lookupV (r : Record) (k : String) : Value :=
  (r.lookup k).getD Value.vNull

/-! ## validation.py -/

/-- The eight required column names (`REQUIRED_COLS` in `validation.py`). -/
def REQUIRED_COLS : List String :=
  ["objectid", "assetid", "lifecyclestatus", "servicearea",
   "staticpressure", "latitude", "longitude", "neighborhood"]

/-- Python `col in record` for a dict: key membership only. -/
def hasKey (record : Record) (col : String) : Bool :=
  (record.lookup col).isSome

/-- `validate(record)` from `validation.py`: true iff every required column
is present as a key; the loop with early `return False` is `List.all`. -/
def validate (record : Record) : Bool :=
  REQUIRED_COLS.all (fun col => hasKey record col)

/-- `validate_data` from `validation.py`, with the JSON file read abstracted
to the parsed list of records: the loop appends records passing `validate`
and counts the rest. -/
def validate_data (data : List Record) : List Record × ℕ :=
  data.foldl
    (fun acc record =>
      if validate record then (acc.1 ++ [record], acc.2) else (acc.1, acc.2 + 1))
    ([], 0)

/-! ## transform.py — scalar helpers -/

/-- Digits to a natural number. -/
def digitsToNat (l : List Char) : ℕ :=
  l.foldl (fun n c => 10 * n + (c.toNat - '0'.toNat)) 0

/-- Decimal-literal parsing: optional sign, integer part, optional fractional
part.  Anything else fails (models the coerce-or-null arm of
`pd.to_numeric` on plain decimal strings). -/
def parseDecimal (s : String) : Option ℚ :=
  let t := s.trim
  let sgn : ℚ := if t.startsWith "-" then -1 else 1
  let body := if t.startsWith "-" ∨ t.startsWith "+" then t.drop 1 else t
  match body.splitOn "." with
  | [ip] =>
      if ip ≠ "" ∧ ip.toList.all Char.isDigit then
        some (sgn * (digitsToNat ip.toList : ℚ))
      else none
  | [ip, fp] =>
      if (ip ≠ "" ∨ fp ≠ "") ∧ ip.toList.all Char.isDigit ∧ fp.toList.all Char.isDigit then
        some (sgn * ((digitsToNat ip.toList : ℚ) +
          (digitsToNat fp.toList : ℚ) / (10 ^ fp.length)))
      else none
  | _ => none

/-- `pd.to_numeric(v, errors coerced)`: numbers pass, strings parse or
become null, null stays null. -/
def to_numeric (v : Value) : Option ℚ :=
  match v with
  | .vNum q => some q
  | .vStr s => parseDecimal s
  | .vNull => none

/-- Python `str(v)` / `astype(str)`: `None` becomes the literal string
`"None"`; numbers render to their decimal form (rendering abstracted via
`toString`); strings pass through. -/
def pyStr (v : Value) : String :=
  match v with
  | .vStr s => s
  | .vNum q => toString q
  | .vNull => "None"

/-- Python `str.title()` (ASCII): a letter after a non-letter is uppercased,
other letters are lowercased. -/
def titleCase (s : String) : String :=
  String.mk
    (s.toList.foldl
      (fun (acc : List Char × Bool) c =>
        (acc.1 ++ [if acc.2 then c.toLower else c.toUpper], c.isAlpha))
      ([], false)).1

/-- NaN-safe `≥` on a pandas cell: false when the cell is null. -/
def optGe (p : Option ℚ) (c : ℚ) : Bool :=
  match p with
  | some v => decide (c ≤ v)
  | none => false

/-- NaN-safe `<` on a pandas cell: false when the cell is null. -/
def optLt (p : Option ℚ) (c : ℚ) : Bool :=
  match p with
  | some v => decide (v < c)
  | none => false

/-- `Series.between lo hi` (inclusive on both bounds), NaN-safe. -/
def optBetween (p : Option ℚ) (lo hi : ℚ) : Bool :=
  match p with
  | some v => decide (lo ≤ v ∧ v ≤ hi)
  | none => false

/-- Round-half-to-even to an integer (the rounding of `Series.round`). -/
def roundHalfEven (q : ℚ) : ℤ :=
  if q - q.floor < 1/2 then q.floor
  else if 1/2 < q - q.floor then q.floor + 1
  else if q.floor % 2 = 0 then q.floor else q.floor + 1

/-- `Series.round 2`: round to two decimal places. -/
def round2 (q : ℚ) : ℚ :=
  (roundHalfEven (q * 100) : ℚ) / 100

/-- `Series.fillna`: replace a null cell by the fill value (itself possibly
null, in which case the cell stays null). -/
def fillna (p fill : Option ℚ) : Option ℚ :=
  match p with
  | some v => some v
  | none => fill

/-- `Series.max`: maximum of the non-null cells, null for an all-null
column. -/
def listMax : List ℚ → Option ℚ
  | [] => none
  | x :: xs => some (xs.foldl max x)

/-- Insert into a sorted list (ascending). -/
def insertSorted (x : ℚ) : List ℚ → List ℚ
  | [] => [x]
  | y :: ys => if x ≤ y then x :: y :: ys else y :: insertSorted x ys

/-- Insertion sort, ascending. -/
def sortRat (xs : List ℚ) : List ℚ :=
  xs.foldr insertSorted []

/-- `Series.median`: skip nulls, sort, take the middle element (odd length)
or the mean of the two middles (even length); null for an all-null column. -/
def median (xs : List ℚ) : Option ℚ :=
  let s := sortRat xs
  let n := s.length
  if n = 0 then none
  else if n % 2 = 1 then s.get? (n / 2)
  else
    match s.get? (n / 2 - 1), s.get? (n / 2) with
    | some a, some b => some ((a + b) / 2)
    | _, _ => none

/-! ## transform.py — derived features -/

/-- `pd.cut` on `staticpressure` with bins (-inf, 20], (20, 40], (40, 60],
(60, inf) (right-closed by default) and the four labels; NaN maps to NaN. -/
def pressure_category (p : Option ℚ) : Option String :=
  match p with
  | none => none
  | some v =>
    if v ≤ 20 then some "INSUFFICIENT"
    else if v ≤ 40 then some "MARGINAL"
    else if v ≤ 60 then some "ADEQUATE"
    else some "EXCELLENT"

/-- The nested `np.where` computing `is_active` from the normalized
lifecycle status: 2 for AB/ABANDONED, else 1 for ACTIVE/AC, else 0. -/
def is_active_flag (status : String) : ℕ :=
  if status = "AB" ∨ status = "ABANDONED" then 2
  else if status = "ACTIVE" ∨ status = "AC" then 1
  else 0

/-- `pressure_risk_score`: `100 - staticpressure / max_pressure * 100`,
then `fillna(100).round(2)` (a null pressure, or an all-null column, yields
the filled value 100, and `round2 100 = 100`). -/
def pressure_risk_score (maxP p : Option ℚ) : ℚ :=
  match p, maxP with
  | some v, some m => round2 (100 - v / m * 100)
  | _, _ => round2 100

/-- The four sequential `.loc` assignments computing `service_quality`,
starting from the `'UNKNOWN'` default; a later assignment overwrites an
earlier one on overlapping conditions (notably `between 20 40` is inclusive
of 40, overwriting the HIGH written by `≥ 40`). -/
def service_quality_tier (a : ℕ) (p : Option ℚ) : String :=
  let q0 := "UNKNOWN"
  let q1 := if a = 1 ∧ optGe p 40 then "HIGH" else q0
  let q2 := if a = 1 ∧ optBetween p 20 40 then "MEDIUM" else q1
  let q3 := if a = 1 ∧ optLt p 20 then "LOW" else q2
  if a = 0 then "INACTIVE" else q3

/-- One transformed row (the FeatureRecord columns the claims are about;
`geo_cluster`, `record_hash` and `load_timestamp` are outside the model
scope, and `load_date` is threaded as an explicit parameter). -/
structure FeatureRow where
  objectid : Option ℚ
  assetid : Option ℚ
  latitude : Option ℚ
  longitude : Option ℚ
  lifecyclestatus : String
  servicearea : String
  neighborhood : String
  load_date : String
  is_active : ℕ
  staticpressure : Option ℚ
  pressure_category : Option String
  pressure_risk_score : ℚ
  service_quality : String
deriving DecidableEq

/-- The coerced `staticpressure` column before imputation: the non-null
values, in row order (batch aggregates `max` and `median` read this). -/
def batch_pressures (recs : List Record) : List ℚ :=
  recs.filterMap (fun r => to_numeric (lookupV r "staticpressure"))

/-- The per-row part of `transform_data`: type coercion, text
normalization (`astype(str)` then strip/upper or strip/title), derived
features from the original coerced pressure, then median imputation of
`staticpressure` (the aggregates `maxP`, `medP` come from the whole batch). -/
def transform_row (d : String) (maxP medP : Option ℚ) (r : Record) : FeatureRow :=
  let p := to_numeric (lookupV r "staticpressure")
  let status := (pyStr (lookupV r "lifecyclestatus")).trim.toUpper
  let a := is_active_flag status
  { objectid := to_numeric (lookupV r "objectid")
    assetid := to_numeric (lookupV r "assetid")
    latitude := to_numeric (lookupV r "latitude")
    longitude := to_numeric (lookupV r "longitude")
    lifecyclestatus := status
    servicearea := titleCase (pyStr (lookupV r "servicearea")).trim
    neighborhood := titleCase (pyStr (lookupV r "neighborhood")).trim
    load_date := d
    is_active := a
    staticpressure := fillna p medP
    pressure_category := pressure_category p
    pressure_risk_score := pressure_risk_score maxP p
    service_quality := service_quality_tier a p }

/-- `transform_data` from `transform.py`: empty input short-circuits to the
empty frame; otherwise the batch aggregates (max and median of the coerced
pressure column) are computed once and every record is transformed. -/
def transform_data (d : String) (valid_records : List Record) : List FeatureRow :=
  if valid_records.isEmpty then []
  else
    valid_records.map
      (transform_row d (listMax (batch_pressures valid_records))
        (median (batch_pressures valid_records)))

/-! ## storage.py -/

/-- An abstract two-level filesystem: which directories exist, and the file
contents stored under (directory, filename). -/
structure FS where
  dirs : String → Bool
  files : String → String → Option (List FeatureRow)

/-- A fresh filesystem: no directories, no files. -/
def emptyFS : FS :=
  { dirs := fun _ => false, files := fun _ _ => none }

/-- `os.makedirs(path)` with the exist-ok flag set: total, records the
directory, no error whether or not it already exists. -/
def makedirs (fs : FS) (path : String) : FS :=
  { fs with dirs := fun p => p = path ∨ fs.dirs p }

/-- `DataFrame.to_parquet(join(dir, fname))`: write (overwriting any
existing file at that path). -/
def writeParquet (fs : FS) (dir fname : String) (content : List FeatureRow) : FS :=
  { fs with
    files := fun d f =>
      if d = dir ∧ f = fname then some content else fs.files d f }

/-- `save_parquet` from `storage.py`: take the first row's `load_date` as
the partition key, build the Hive-style path `{dir}/load_date={date}`,
create it (exist-ok), and write the single file `firehydrants.parquet`
inside it.  `iloc[0]` on an empty frame raises, modelled as `none`. -/
def save_parquet (df : List FeatureRow) (processed_dir : String) (fs : FS) :
    Option FS :=
  match df.head? with
  | none => none
  | some first =>
      let date := first.load_date
      let path := processed_dir ++ "/load_date=" ++ date
      let fs1 := makedirs fs path
      some (writeParquet fs1 path "firehydrants.parquet" df)

/-! ## run_hydrant_pipeline.py / alerts.py -/

/-- The observable outcome of one pipeline run: the alerts sent through
`send_alert`, the final result (`ok`, or the re-raised error message), and
the filesystem after the run. -/
structure RunOutcome where
  alerts : List String
  result : Except String Unit
  fs : FS

/-- `run_pipeline` from `run_hydrant_pipeline.py`, with the fetch stage
abstracted to the parsed raw records and the transform timestamp threaded
as `d`.  The quality gate raises on an empty valid set, a second gate
raises on an empty transform output; the top-level handler logs, calls
`send_alert` with the failure message, and re-raises. -/
def run_pipeline (d : String) (raw : List Record) (fs : FS) : RunOutcome :=
  let valid := (validate_data raw).1
  if valid.isEmpty then
    { alerts := ["Hydrant pipeline failed: No valid data to process after validation."]
      result := .error "No valid data to process after validation."
      fs := fs }
  else
    let df := transform_data d valid
    if df.isEmpty then
      { alerts := ["Hydrant pipeline failed: transform_data returned empty DataFrame; aborting pipeline."]
        result := .error "transform_data returned empty DataFrame; aborting pipeline."
        fs := fs }
    else
      match save_parquet df "data/processed" fs with
      | some fs2 => { alerts := [], result := .ok (), fs := fs2 }
      | none =>
          { alerts := ["Hydrant pipeline failed: storage write error"]
            result := .error "storage write error"
            fs := fs }

/-! ## General lemmas -/

/-- The accumulator-passing loop of `validate_data`, characterized. -/
theorem validate_data_go (data : List Record) (acc : List Record) (n : ℕ) :
    data.foldl
      (fun acc record =>
        if validate record then (acc.1 ++ [record], acc.2) else (acc.1, acc.2 + 1))
      (acc, n) =
    (acc ++ data.filter (fun r => validate r),
     n + (data.filter (fun r => !validate r)).length) := by
  induction data generalizing acc n with
  | nil => simp
  | cons r rest ih =>
      by_cases h : validate r
      · simp [List.foldl_cons, h, ih]
      · simp [List.foldl_cons, h, ih, Nat.add_assoc, Nat.add_comm 1]

/-- `validate_data` is the stable filter by `validate`, together with the
count of rejected records. -/
theorem validate_data_eq (data : List Record) :
    validate_data data =
      (data.filter (fun r => validate r),
       (data.filter (fun r => !validate r)).length) := by
  have h := validate_data_go data [] 0
  simpa [validate_data] using h

/-- Row `i` of the transformed frame is `transform_row` (with the batch
aggregates) applied to record `i` of the input. -/
theorem transform_data_getElem (d : String) (recs : List Record) (i : ℕ)
    (row : FeatureRow) (h : (transform_data d recs)[i]? = some row) :
    ∃ r, recs[i]? = some r ∧
      row = transform_row d (listMax (batch_pressures recs))
              (median (batch_pressures recs)) r := by
  unfold transform_data at h
  by_cases he : recs.isEmpty
  · rw [if_pos he] at h; simp at h
  · rw [if_neg he, List.getElem?_map] at h
    cases hr : recs[i]? with
    | none => rw [hr] at h; simp at h
    | some r =>
        rw [hr] at h
        simp only [Option.map_some', Option.some.injEq] at h
        exact ⟨r, rfl, h.symm⟩

/-! ## Tier lemmas for the sequential `.loc` assignments -/

/-- The last assignment wins: an inactive hydrant is INACTIVE. -/
theorem tier_inactive (p : Option ℚ) : service_quality_tier 0 p = "INACTIVE" := by
  simp [service_quality_tier]

/-- An abandoned hydrant (flag 2) keeps the UNKNOWN default. -/
theorem tier_abandoned (p : Option ℚ) : service_quality_tier 2 p = "UNKNOWN" := by
  simp [service_quality_tier]

/-- An active hydrant with null pressure keeps the UNKNOWN default
(every NaN comparison is false). -/
theorem tier_active_null : service_quality_tier 1 none = "UNKNOWN" := by
  simp [service_quality_tier, optGe, optLt, optBetween]

/-- An active hydrant stays HIGH only for pressure strictly above 40:
the MEDIUM assignment runs later and `between` includes 40. -/
theorem tier_high (v : ℚ) (h : 40 < v) :
    service_quality_tier 1 (some v) = "HIGH" := by
  have h1 : ¬ v < 20 := by linarith
  have h2 : ¬ (20 ≤ v ∧ v ≤ 40) := fun hc => absurd h (not_lt.mpr hc.2)
  have h3 : (40 : ℚ) ≤ v := le_of_lt h
  simp [service_quality_tier, optGe, optLt, optBetween, h1, h2, h3]

/-- An active hydrant with pressure in [20, 40] ends MEDIUM (the `between`
assignment overwrites HIGH at exactly 40). -/
theorem tier_medium (v : ℚ) (h1 : 20 ≤ v) (h2 : v ≤ 40) :
    service_quality_tier 1 (some v) = "MEDIUM" := by
  have h3 : ¬ v < 20 := not_lt.mpr h1
  simp [service_quality_tier, optGe, optLt, optBetween, h1, h2, h3]

/-- An active hydrant with pressure below 20 ends LOW. -/
theorem tier_low (v : ℚ) (h : v < 20) :
    service_quality_tier 1 (some v) = "LOW" := by
  simp [service_quality_tier, optGe, optLt, optBetween, h]

/-! ## Claim theorems -/

/-- C7: `transform_data` on an empty record list short-circuits and returns
the empty dataset (total, so no error is raised). -/
theorem C7_transform_empty (d : String) : transform_data d [] = [] := rfl

/-- C2: `validate_data` returns exactly the order-preserving subsequence of
records having all eight required field names as keys (values are never
inspected), the count of the remaining records, and the two sides partition
the input: `len(valid) + invalid = len(input)`. -/
theorem C2_validate_partition (data : List Record) :
    ((validate_data data).1 = data.filter (fun r => validate r)) ∧
    ((validate_data data).1).Sublist data ∧
    ((validate_data data).1.length + (validate_data data).2 = data.length) ∧
    (∀ r : Record, validate r = true ↔
      (hasKey r "objectid" ∧ hasKey r "assetid" ∧ hasKey r "lifecyclestatus" ∧
       hasKey r "servicearea" ∧ hasKey r "staticpressure" ∧ hasKey r "latitude" ∧
       hasKey r "longitude" ∧ hasKey r "neighborhood")) := by
  rw [validate_data_eq]
  refine ⟨rfl, List.filter_sublist data, ?_, ?_⟩
  · exact (List.length_eq_length_filter_add (fun r => validate r)).symm
  · intro r
    simp [validate, REQUIRED_COLS, and_assoc]

/-- C4: with zero valid records the quality gate raises, the notifier is
invoked with the failure message, the error propagates to the caller, and
the filesystem is untouched (no partition write). -/
theorem C4_empty_valid_gate (d : String) (raw : List Record) (fs : FS)
    (h : (validate_data raw).1 = []) :
    (run_pipeline d raw fs).result =
      Except.error "No valid data to process after validation." ∧
    (run_pipeline d raw fs).alerts =
      ["Hydrant pipeline failed: No valid data to process after validation."] ∧
    (run_pipeline d raw fs).fs = fs := by
  simp [run_pipeline, h]

/-- C4 witness: the empty raw payload trips the gate. -/
theorem C4_empty_valid_gate_witness :
    (validate_data ([] : List Record)).1 = [] ∧
    ((run_pipeline "2024-06-20" [] emptyFS).result =
        Except.error "No valid data to process after validation." ∧
     (run_pipeline "2024-06-20" [] emptyFS).alerts =
        ["Hydrant pipeline failed: No valid data to process after validation."] ∧
     (run_pipeline "2024-06-20" [] emptyFS).fs = emptyFS) :=
  ⟨rfl, C4_empty_valid_gate "2024-06-20" [] emptyFS rfl⟩

/-! ## Projections of a transformed row -/

theorem transform_row_is_active (d : String) (mP mD : Option ℚ) (r : Record) :
    (transform_row d mP mD r).is_active =
      is_active_flag ((pyStr (lookupV r "lifecyclestatus")).trim.toUpper) := rfl

theorem transform_row_service_quality (d : String) (mP mD : Option ℚ) (r : Record) :
    (transform_row d mP mD r).service_quality =
      service_quality_tier
        (is_active_flag ((pyStr (lookupV r "lifecyclestatus")).trim.toUpper))
        (to_numeric (lookupV r "staticpressure")) := rfl

theorem transform_row_pc (d : String) (mP mD : Option ℚ) (r : Record) :
    (transform_row d mP mD r).pressure_category =
      pressure_category (to_numeric (lookupV r "staticpressure")) := rfl

theorem transform_row_risk (d : String) (mP mD : Option ℚ) (r : Record) :
    (transform_row d mP mD r).pressure_risk_score =
      pressure_risk_score mP (to_numeric (lookupV r "staticpressure")) := rfl

theorem transform_row_sp (d : String) (mP mD : Option ℚ) (r : Record) :
    (transform_row d mP mD r).staticpressure =
      fillna (to_numeric (lookupV r "staticpressure")) mD := rfl

theorem transform_row_lifecycle (d : String) (mP mD : Option ℚ) (r : Record) :
    (transform_row d mP mD r).lifecyclestatus =
      (pyStr (lookupV r "lifecyclestatus")).trim.toUpper := rfl

theorem transform_row_servicearea (d : String) (mP mD : Option ℚ) (r : Record) :
    (transform_row d mP mD r).servicearea =
      titleCase (pyStr (lookupV r "servicearea")).trim := rfl

theorem transform_row_neighborhood (d : String) (mP mD : Option ℚ) (r : Record) :
    (transform_row d mP mD r).neighborhood =
      titleCase (pyStr (lookupV r "neighborhood")).trim := rfl

/-- Rounding leaves the already-exact fill value 100 unchanged. -/
theorem round2_100 : round2 100 = 100 := by with_unfolding_all decide

/-- An all-null coerced pressure column has no batch pressures. -/
theorem batch_pressures_nil (recs : List Record)
    (hnull : ∀ r ∈ recs, to_numeric (lookupV r "staticpressure") = none) :
    batch_pressures recs = [] := by
  induction recs with
  | nil => rfl
  | cons r rest ih =>
      have h1 := hnull r (List.mem_cons_self r rest)
      have h2 := ih fun x hx => hnull x (List.mem_cons_of_mem r hx)
      simp only [batch_pressures, List.filterMap_cons, h1] at h2 ⊢
      exact h2

/-- C1 (amended): a transformed row's service quality follows the
sequential tier rule: INACTIVE for flag 0, UNKNOWN for flag 2 or an active
hydrant with null pressure, and for an active hydrant HIGH only for
pressure strictly above 40, MEDIUM on [20, 40] (40 included, since the
MEDIUM assignment runs after the HIGH one), LOW below 20. -/
theorem C1_service_quality_rule (d : String) (recs : List Record) (i : ℕ)
    (r : Record) (row : FeatureRow)
    (hr : recs[i]? = some r)
    (hrow : (transform_data d recs)[i]? = some row) :
    (row.is_active = 0 → row.service_quality = "INACTIVE") ∧
    (row.is_active = 2 → row.service_quality = "UNKNOWN") ∧
    (row.is_active = 1 → to_numeric (lookupV r "staticpressure") = none →
        row.service_quality = "UNKNOWN") ∧
    (∀ v : ℚ, row.is_active = 1 →
        to_numeric (lookupV r "staticpressure") = some v →
      ((40 < v → row.service_quality = "HIGH") ∧
       (20 ≤ v → v ≤ 40 → row.service_quality = "MEDIUM") ∧
       (v < 20 → row.service_quality = "LOW"))) := by
  obtain ⟨r', hr', hEq⟩ := transform_data_getElem d recs i row hrow
  rw [hr] at hr'
  injection hr' with hre
  subst hre
  subst hEq
  simp only [transform_row_is_active, transform_row_service_quality]
  refine ⟨?_, ?_, ?_, ?_⟩
  · intro h0; rw [h0]; exact tier_inactive _
  · intro h2; rw [h2]; exact tier_abandoned _
  · intro h1 hn; rw [h1, hn]; exact tier_active_null
  · intro v h1 hv
    rw [h1, hv]
    exact ⟨fun h => tier_high v h, fun ha hb => tier_medium v ha hb,
           fun h => tier_low v h⟩

/-! ## Interval lemmas for `pd.cut` -/

theorem pc_insufficient (v : ℚ) (h : v ≤ 20) :
    pressure_category (some v) = some "INSUFFICIENT" := by
  simp [pressure_category, h]

theorem pc_marginal (v : ℚ) (h1 : 20 < v) (h2 : v ≤ 40) :
    pressure_category (some v) = some "MARGINAL" := by
  have ha : ¬ v ≤ 20 := not_le.mpr h1
  simp [pressure_category, ha, h2]

theorem pc_adequate (v : ℚ) (h1 : 40 < v) (h2 : v ≤ 60) :
    pressure_category (some v) = some "ADEQUATE" := by
  have ha : ¬ v ≤ 20 := by linarith
  have hb : ¬ v ≤ 40 := not_le.mpr h1
  simp [pressure_category, ha, hb, h2]

theorem pc_excellent (v : ℚ) (h : 60 < v) :
    pressure_category (some v) = some "EXCELLENT" := by
  have ha : ¬ v ≤ 20 := by linarith
  have hb : ¬ v ≤ 40 := by linarith
  have hc : ¬ v ≤ 60 := not_le.mpr h
  simp [pressure_category, ha, hb, hc]

/-! ## Sample data -/

/-- A schema-complete record with the given lifecycle status and static
pressure (the other six required fields held fixed). -/
def mkRec (status pressure : Value) : Record :=
  [("objectid", .vStr "1"), ("assetid", .vStr "11"),
   ("lifecyclestatus", status), ("servicearea", .vStr "west side"),
   ("staticpressure", pressure), ("latitude", .vStr "39.1"),
   ("longitude", .vStr "-84.5"), ("neighborhood", .vStr "downtown")]

/-- C1 counterexample: an active hydrant at exactly 40 PSI meets the
claim's HIGH condition (`is_active = 1` and `staticpressure ≥ 40`) yet the
code yields MEDIUM, because the `between(20, 40)` assignment runs after
the `≥ 40` assignment and `between` includes 40. -/
theorem C1_counterexample :
    to_numeric (lookupV (mkRec (.vStr "ACTIVE") (.vStr "40")) "staticpressure")
      = some 40 ∧
    (transform_data "2024-06-20" [mkRec (.vStr "ACTIVE") (.vStr "40")]).map
        FeatureRow.is_active = [1] ∧
    (transform_data "2024-06-20" [mkRec (.vStr "ACTIVE") (.vStr "40")]).map
        FeatureRow.service_quality = ["MEDIUM"] ∧
    ("MEDIUM" : String) ≠ "HIGH" := by
  with_unfolding_all decide

def recActive25 : Record := mkRec (.vStr "ACTIVE") (.vStr "25")

def rowActive25 : FeatureRow :=
  transform_row "2024-06-20" (listMax (batch_pressures [recActive25]))
    (median (batch_pressures [recActive25])) recActive25

/-- C1 witness: an active hydrant at 25 PSI is MEDIUM. -/
theorem C1_service_quality_rule_witness :
    (([recActive25] : List Record)[0]? = some recActive25) ∧
    ((transform_data "2024-06-20" [recActive25])[0]? = some rowActive25) ∧
    rowActive25.is_active = 1 ∧
    to_numeric (lookupV recActive25 "staticpressure") = some 25 ∧
    rowActive25.service_quality = "MEDIUM" := by
  refine ⟨rfl, by with_unfolding_all rfl, by with_unfolding_all decide,
    by with_unfolding_all decide, ?_⟩
  have h := (C1_service_quality_rule "2024-06-20" [recActive25] 0 recActive25
    rowActive25 rfl (by with_unfolding_all rfl)).2.2.2 25
    (by with_unfolding_all decide) (by with_unfolding_all decide)
  exact h.2.1 (by norm_num) (by norm_num)

/-- C3: `pressure_category` follows the right-closed intervals
(-inf, 20] INSUFFICIENT, (20, 40] MARGINAL, (40, 60] ADEQUATE,
(60, inf) EXCELLENT on the coerced pressure, and a null pressure yields a
null category. -/
theorem C3_pressure_category (d : String) (recs : List Record) (i : ℕ)
    (r : Record) (row : FeatureRow)
    (hr : recs[i]? = some r)
    (hrow : (transform_data d recs)[i]? = some row) :
    (to_numeric (lookupV r "staticpressure") = none →
        row.pressure_category = none) ∧
    (∀ v : ℚ, to_numeric (lookupV r "staticpressure") = some v →
      ((v ≤ 20 → row.pressure_category = some "INSUFFICIENT") ∧
       (20 < v → v ≤ 40 → row.pressure_category = some "MARGINAL") ∧
       (40 < v → v ≤ 60 → row.pressure_category = some "ADEQUATE") ∧
       (60 < v → row.pressure_category = some "EXCELLENT"))) := by
  obtain ⟨r', hr', hEq⟩ := transform_data_getElem d recs i row hrow
  rw [hr] at hr'; injection hr' with hre; subst hre; subst hEq
  simp only [transform_row_pc]
  refine ⟨?_, ?_⟩
  · intro hn; rw [hn]; rfl
  · intro v hv; rw [hv]
    exact ⟨fun h => pc_insufficient v h,
           fun ha hb => pc_marginal v ha hb,
           fun ha hb => pc_adequate v ha hb,
           fun h => pc_excellent v h⟩

def recActive40 : Record := mkRec (.vStr "ACTIVE") (.vStr "40")

def rowActive40 : FeatureRow :=
  transform_row "2024-06-20" (listMax (batch_pressures [recActive40]))
    (median (batch_pressures [recActive40])) recActive40

/-- C3 witness: pressure exactly 40 falls in (20, 40], hence MARGINAL. -/
theorem C3_pressure_category_witness :
    (([recActive40] : List Record)[0]? = some recActive40) ∧
    ((transform_data "2024-06-20" [recActive40])[0]? = some rowActive40) ∧
    to_numeric (lookupV recActive40 "staticpressure") = some 40 ∧
    rowActive40.pressure_category = some "MARGINAL" := by
  refine ⟨rfl, by with_unfolding_all rfl, by with_unfolding_all decide, ?_⟩
  have h := (C3_pressure_category "2024-06-20" [recActive40] 0 recActive40
    rowActive40 rfl (by with_unfolding_all rfl)).2 40
    (by with_unfolding_all decide)
  exact h.2.1 (by norm_num) (by norm_num)

/-- C5: with `maxP` the batch maximum of non-null coerced pressures, a row
with non-null pressure v scores `round2 (100 - v / maxP * 100)` and a row
with null pressure scores 100. -/
theorem C5_pressure_risk (d : String) (recs : List Record) (i : ℕ)
    (r : Record) (row : FeatureRow) (m : ℚ)
    (hr : recs[i]? = some r)
    (hrow : (transform_data d recs)[i]? = some row)
    (hm : listMax (batch_pressures recs) = some m) :
    (∀ v : ℚ, to_numeric (lookupV r "staticpressure") = some v →
        row.pressure_risk_score = round2 (100 - v / m * 100)) ∧
    (to_numeric (lookupV r "staticpressure") = none →
        row.pressure_risk_score = 100) := by
  obtain ⟨r', hr', hEq⟩ := transform_data_getElem d recs i row hrow
  rw [hr] at hr'; injection hr' with hre; subst hre; subst hEq
  simp only [transform_row_risk, hm]
  constructor
  · intro v hv; rw [hv]; rfl
  · intro hn; rw [hn]; exact round2_100

def recActive30 : Record := mkRec (.vStr "ACTIVE") (.vStr "30")

def recActive60 : Record := mkRec (.vStr "ACTIVE") (.vStr "60")

def rowRisk30 : FeatureRow :=
  transform_row "2024-06-20"
    (listMax (batch_pressures [recActive30, recActive60]))
    (median (batch_pressures [recActive30, recActive60])) recActive30

/-- C5 witness: in a batch with maximum pressure 60, the row at 30 scores
100 - (30/60 × 100) = 50.00. -/
theorem C5_pressure_risk_witness :
    (([recActive30, recActive60] : List Record)[0]? = some recActive30) ∧
    ((transform_data "2024-06-20" [recActive30, recActive60])[0]?
        = some rowRisk30) ∧
    listMax (batch_pressures [recActive30, recActive60]) = some 60 ∧
    rowRisk30.pressure_risk_score = 50 := by
  refine ⟨rfl, by with_unfolding_all rfl, by with_unfolding_all decide, ?_⟩
  have h := (C5_pressure_risk "2024-06-20" [recActive30, recActive60] 0
    recActive30 rowRisk30 60 rfl (by with_unfolding_all rfl)
    (by with_unfolding_all decide)).1 30 (by with_unfolding_all decide)
  rw [h]
  with_unfolding_all decide

/-- C8: the activity flag of a transformed row is computed from the
trimmed, uppercased lifecycle status: 2 for AB/ABANDONED, else 1 for
ACTIVE/AC, else 0. -/
theorem C8_is_active_rule (d : String) (recs : List Record) (i : ℕ)
    (r : Record) (row : FeatureRow)
    (hr : recs[i]? = some r)
    (hrow : (transform_data d recs)[i]? = some row) :
    row.lifecyclestatus = (pyStr (lookupV r "lifecyclestatus")).trim.toUpper ∧
    ((row.lifecyclestatus = "AB" ∨ row.lifecyclestatus = "ABANDONED") →
        row.is_active = 2) ∧
    (¬(row.lifecyclestatus = "AB" ∨ row.lifecyclestatus = "ABANDONED") →
        (row.lifecyclestatus = "ACTIVE" ∨ row.lifecyclestatus = "AC") →
        row.is_active = 1) ∧
    (¬(row.lifecyclestatus = "AB" ∨ row.lifecyclestatus = "ABANDONED") →
        ¬(row.lifecyclestatus = "ACTIVE" ∨ row.lifecyclestatus = "AC") →
        row.is_active = 0) := by
  obtain ⟨r', hr', hEq⟩ := transform_data_getElem d recs i row hrow
  rw [hr] at hr'; injection hr' with hre; subst hre; subst hEq
  simp only [transform_row_lifecycle, transform_row_is_active]
  refine ⟨trivial, ?_, ?_, ?_⟩
  · intro h; unfold is_active_flag; rw [if_pos h]
  · intro hn h; unfold is_active_flag; rw [if_neg hn, if_pos h]
  · intro hn1 hn2; unfold is_active_flag; rw [if_neg hn1, if_neg hn2]

def recAb : Record := mkRec (.vStr " ab ") (.vStr "30")

def rowAb : FeatureRow :=
  transform_row "2024-06-20" (listMax (batch_pressures [recAb]))
    (median (batch_pressures [recAb])) recAb

/-- C8 witness: input status " ab " normalizes to "AB" and yields flag 2. -/
theorem C8_is_active_rule_witness :
    (([recAb] : List Record)[0]? = some recAb) ∧
    ((transform_data "2024-06-20" [recAb])[0]? = some rowAb) ∧
    rowAb.lifecyclestatus = "AB" ∧
    rowAb.is_active = 2 := by
  refine ⟨rfl, by with_unfolding_all rfl, by with_unfolding_all decide, ?_⟩
  exact (C8_is_active_rule "2024-06-20" [recAb] 0 recAb rowAb rfl
    (by with_unfolding_all rfl)).2.1
    (Or.inl (by with_unfolding_all decide))

/-- C9: in a non-empty batch whose every coerced pressure is null, the
median is null, so imputation leaves `staticpressure` null in every output
row, while every row still scores risk 100 and carries a null pressure
category. -/
theorem C9_all_null_batch (d : String) (recs : List Record)
    (hne : recs ≠ [])
    (hnull : ∀ r ∈ recs, to_numeric (lookupV r "staticpressure") = none) :
    (transform_data d recs).length = recs.length ∧
    ∀ row ∈ transform_data d recs,
      row.staticpressure = none ∧ row.pressure_risk_score = 100 ∧
      row.pressure_category = none := by
  have hbp := batch_pressures_nil recs hnull
  have he : recs.isEmpty = false := by
    cases recs with
    | nil => exact absurd rfl hne
    | cons a l => rfl
  constructor
  · simp [transform_data, he]
  · intro row hrow
    unfold transform_data at hrow
    rw [he] at hrow
    simp only [Bool.false_eq_true, if_false] at hrow
    obtain ⟨r, hrm, hEq⟩ := List.mem_map.mp hrow
    subst hEq
    have hp := hnull r hrm
    rw [hbp]
    refine ⟨?_, ?_, ?_⟩
    · rw [transform_row_sp, hp]; rfl
    · rw [transform_row_risk, hp]; exact round2_100
    · rw [transform_row_pc, hp]; rfl

def recNa : Record := mkRec (.vStr "ACTIVE") (.vStr "n/a")

/-- C9 witness: a one-record batch whose pressure "n/a" coerces to null. -/
theorem C9_all_null_batch_witness :
    (([recNa] : List Record) ≠ []) ∧
    (∀ r ∈ ([recNa] : List Record),
        to_numeric (lookupV r "staticpressure") = none) ∧
    ((transform_data "2024-06-20" [recNa]).length = 1 ∧
     ∀ row ∈ transform_data "2024-06-20" [recNa],
       row.staticpressure = none ∧ row.pressure_risk_score = 100 ∧
       row.pressure_category = none) := by
  refine ⟨by decide, by with_unfolding_all decide, ?_⟩
  exact C9_all_null_batch "2024-06-20" [recNa] (by decide)
    (by with_unfolding_all decide)

/-- C10: the three text fields of a transformed row are total string
normalizations of `str()` of the raw value, so they are never null; in
particular a null raw value becomes the literal string "None" before
normalization ("NONE" after uppercasing, "None" after title-casing). -/
theorem C10_text_fields (d : String) (recs : List Record) (i : ℕ)
    (r : Record) (row : FeatureRow)
    (hr : recs[i]? = some r)
    (hrow : (transform_data d recs)[i]? = some row) :
    row.lifecyclestatus = (pyStr (lookupV r "lifecyclestatus")).trim.toUpper ∧
    row.servicearea = titleCase (pyStr (lookupV r "servicearea")).trim ∧
    row.neighborhood = titleCase (pyStr (lookupV r "neighborhood")).trim ∧
    (lookupV r "lifecyclestatus" = Value.vNull → row.lifecyclestatus = "NONE") ∧
    (lookupV r "servicearea" = Value.vNull → row.servicearea = "None") ∧
    (lookupV r "neighborhood" = Value.vNull → row.neighborhood = "None") := by
  obtain ⟨r', hr', hEq⟩ := transform_data_getElem d recs i row hrow
  rw [hr] at hr'; injection hr' with hre; subst hre; subst hEq
  simp only [transform_row_lifecycle, transform_row_servicearea,
    transform_row_neighborhood]
  refine ⟨trivial, trivial, trivial, ?_, ?_, ?_⟩
  · intro h; rw [h]; with_unfolding_all decide
  · intro h; rw [h]; with_unfolding_all decide
  · intro h; rw [h]; with_unfolding_all decide

def recNulls : Record :=
  [("objectid", .vStr "1"), ("assetid", .vStr "11"),
   ("lifecyclestatus", .vNull), ("servicearea", .vNull),
   ("staticpressure", .vStr "30"), ("latitude", .vStr "39.1"),
   ("longitude", .vStr "-84.5"), ("neighborhood", .vNull)]

def rowNulls : FeatureRow :=
  transform_row "2024-06-20" (listMax (batch_pressures [recNulls]))
    (median (batch_pressures [recNulls])) recNulls

/-- C10 witness: null text inputs come out as the non-null strings
"NONE" / "None" / "None". -/
theorem C10_text_fields_witness :
    (([recNulls] : List Record)[0]? = some recNulls) ∧
    ((transform_data "2024-06-20" [recNulls])[0]? = some rowNulls) ∧
    rowNulls.lifecyclestatus = "NONE" ∧
    rowNulls.servicearea = "None" ∧
    rowNulls.neighborhood = "None" := by
  have h := C10_text_fields "2024-06-20" [recNulls] 0 recNulls rowNulls rfl
    (by with_unfolding_all rfl)
  refine ⟨rfl, by with_unfolding_all rfl, ?_, ?_, ?_⟩
  · exact h.2.2.2.1 rfl
  · exact h.2.2.2.2.1 rfl
  · exact h.2.2.2.2.2 rfl

/-- C6: for non-empty datasets sharing one `load_date`, `save_parquet`
derives the partition path from the first row, creates the partition
directory (no error when it already exists, as on the second write), and
writes the single file `firehydrants.parquet`; writing the same partition
twice leaves exactly one file there, holding the latest dataset. -/
theorem C6_save_parquet (df1 df2 : List FeatureRow) (base dte : String)
    (fs0 : FS)
    (h1 : df1 ≠ []) (h2 : df2 ≠ [])
    (hd1 : ∀ r ∈ df1, r.load_date = dte) (hd2 : ∀ r ∈ df2, r.load_date = dte)
    (hclean : ∀ fname, fs0.files (base ++ "/load_date=" ++ dte) fname = none) :
    ∃ fs1 fs2,
      save_parquet df1 base fs0 = some fs1 ∧
      save_parquet df2 base fs1 = some fs2 ∧
      fs1.dirs (base ++ "/load_date=" ++ dte) = true ∧
      fs2.dirs (base ++ "/load_date=" ++ dte) = true ∧
      fs2.files (base ++ "/load_date=" ++ dte) "firehydrants.parquet"
        = some df2 ∧
      (∀ fname,
        (fs2.files (base ++ "/load_date=" ++ dte) fname).isSome ↔
          fname = "firehydrants.parquet") := by
  obtain ⟨a1, t1, rfl⟩ := List.exists_cons_of_ne_nil h1
  obtain ⟨a2, t2, rfl⟩ := List.exists_cons_of_ne_nil h2
  have ha1 : a1.load_date = dte := hd1 a1 (List.mem_cons_self _ _)
  have ha2 : a2.load_date = dte := hd2 a2 (List.mem_cons_self _ _)
  refine
    ⟨writeParquet (makedirs fs0 (base ++ "/load_date=" ++ dte))
        (base ++ "/load_date=" ++ dte) "firehydrants.parquet" (a1 :: t1),
     writeParquet
        (makedirs
          (writeParquet (makedirs fs0 (base ++ "/load_date=" ++ dte))
            (base ++ "/load_date=" ++ dte) "firehydrants.parquet" (a1 :: t1))
          (base ++ "/load_date=" ++ dte))
        (base ++ "/load_date=" ++ dte) "firehydrants.parquet" (a2 :: t2),
     ?_, ?_, ?_, ?_, ?_, ?_⟩
  · simp [save_parquet, ha1]
  · simp [save_parquet, ha2]
  · simp [writeParquet, makedirs]
  · simp [writeParquet, makedirs]
  · simp [writeParquet]
  · intro fname
    by_cases hf : fname = "firehydrants.parquet"
    · subst hf; simp [writeParquet]
    · simp [writeParquet, makedirs, hf, hclean fname]

def rowW1 : FeatureRow :=
  { objectid := none, assetid := none, latitude := none, longitude := none,
    lifecyclestatus := "ACTIVE", servicearea := "West Side",
    neighborhood := "Downtown", load_date := "2024-06-20", is_active := 1,
    staticpressure := none, pressure_category := none,
    pressure_risk_score := 100, service_quality := "UNKNOWN" }

def rowW2 : FeatureRow :=
  { rowW1 with service_quality := "MEDIUM" }

/-- C6 witness: two successive one-row writes for the same load date into
a fresh filesystem. -/
theorem C6_save_parquet_witness :
    (([rowW1] : List FeatureRow) ≠ []) ∧
    (([rowW2] : List FeatureRow) ≠ []) ∧
    (∀ r ∈ ([rowW1] : List FeatureRow), r.load_date = "2024-06-20") ∧
    (∀ r ∈ ([rowW2] : List FeatureRow), r.load_date = "2024-06-20") ∧
    (∀ fname,
      emptyFS.files ("data/processed" ++ "/load_date=" ++ "2024-06-20") fname
        = none) ∧
    (∃ fs1 fs2,
      save_parquet [rowW1] "data/processed" emptyFS = some fs1 ∧
      save_parquet [rowW2] "data/processed" fs1 = some fs2 ∧
      fs1.dirs ("data/processed" ++ "/load_date=" ++ "2024-06-20") = true ∧
      fs2.dirs ("data/processed" ++ "/load_date=" ++ "2024-06-20") = true ∧
      fs2.files ("data/processed" ++ "/load_date=" ++ "2024-06-20")
        "firehydrants.parquet" = some [rowW2] ∧
      (∀ fname,
        (fs2.files ("data/processed" ++ "/load_date=" ++ "2024-06-20")
            fname).isSome ↔
          fname = "firehydrants.parquet")) := by
  refine ⟨by decide, by decide, by decide, by decide, fun _ => rfl, ?_⟩
  exact C6_save_parquet [rowW1] [rowW2] "data/processed" "2024-06-20" emptyFS
    (by decide) (by decide) (by decide) (by decide) (fun _ => rfl)
